import Mathlib

/-!
Shallow embedding of `linear.py`, the linear-probe evaluation driver of this
repository.  Pure string manipulation, the checkpoint key-stripping loop, the
embedding-extraction loop, the classifier wiring and the driver's control flow
are translated into executable Lean definitions; the external collaborators
(the encoder, the classifier utility, the dataset loaders, the file system)
are abstracted as parameters.
-/

namespace LinearPy

/-- Equality of `Except` values is decidable when it is on both sides. -/
instance {ε α : Type} [DecidableEq ε] [DecidableEq α] : DecidableEq (Except ε α) := fun a b =>
  match a, b with
  | .error e, .error e' =>
    if h : e = e' then isTrue (by rw [h]) else isFalse (by intro hc; cases hc; exact h rfl)
  | .error _, .ok _ => isFalse (by intro hc; cases hc)
  | .ok _, .error _ => isFalse (by intro hc; cases hc)
  | .ok v, .ok v' =>
    if h : v = v' then isTrue (by rw [h]) else isFalse (by intro hc; cases hc; exact h rfl)

/-! ### Python string primitives

`"pat" in s` (substring containment) and `s.replace(pat, rep)` (replace every
occurrence, scanning left to right without overlap), modelled over `List Char`
and lifted to `String`. -/

/-- Python's `pat in s`: `pat` occurs as a contiguous substring of `s`. -/
def listContains (s pat : List Char) : Bool :=
  match s with
  | [] => pat.isEmpty
  | _ :: rest => pat.isPrefixOf s || listContains rest pat

/-- Helper of `listReplace`: walk the string; `skip` counts characters still to
drop because they belong to an occurrence already matched and replaced. -/
def repAux (pat rep : List Char) : List Char → Nat → List Char
  | [], _ => []
  | _ :: rest, Nat.succ k => repAux pat rep rest k
  | c :: rest, 0 =>
    if pat.isPrefixOf (c :: rest) then rep ++ repAux pat rep rest (pat.length - 1)
    else c :: repAux pat rep rest 0

/-- Python's `s.replace(pat, rep)` for non-empty `pat`: every non-overlapping
occurrence, scanned left to right, is replaced.  (All call sites in
`linear.py` use a fixed non-empty pattern, so the empty-pattern case of
Python's `replace` never arises; it is mapped to the identity.) -/
def listReplace (pat rep s : List Char) : List Char :=
  if pat.isEmpty then s else repAux pat rep s 0

/-- `pat in s` on `String`. -/
def strContains (s pat : String) : Bool :=
  listContains s.toList pat.toList

/-- `s.replace(pat, rep)` on `String`. -/
def strReplaceAll (s pat rep : String) : String :=
  String.mk (listReplace pat.toList rep.toList s.toList)

/-! ### Checkpoint state mappings (`load_model`, lines 114-133)

A Python state dict is a finite mapping from parameter names to tensors; it is
modelled as an association list (iteration order preserved, as in a Python
dict).  The tensor values stay abstract in a type `V`. -/

/-- A state dict: parameter names mapped to abstract tensor values. -/
abbrev StateDict (V : Type) : Type := List (String × V)

/-- One pass of the dict comprehension
`{k.replace(p, ""): v for k, v in sd.items() if p in k}`:
keep the entries whose key contains `p` as a substring and replace every
occurrence of `p` in the key by the empty string.  (Python's dict
comprehension would additionally collapse duplicate produced keys, keeping the
last binding; the claims under study only depend on which entries survive the
filter, so the association list keeps them all.) -/
def stripBy (p : String) (sd : StateDict V) : StateDict V :=
  (sd.filter fun kv => strContains kv.1 p).map fun kv => (strReplaceAll kv.1 p "", kv.2)

/-- The `while True` block of `load_model` (lines 122-130): try
`"backbone.encoder."` first, then `"encoder.encoder."`; the first pattern
whose filtered mapping is non-empty wins, and if both filtered mappings are
empty the state dict is used unmodified. -/
def cleanSD (sd : StateDict V) : StateDict V :=
  let c1 := stripBy "backbone.encoder." sd
  if c1.isEmpty then
    let c2 := stripBy "encoder.encoder." sd
    if c2.isEmpty then sd else c2
  else c1

/-! ### Tensors, batches and the embedding extractor (`get_embeddings`, lines 27-48)

Numeric contents stay abstract (a row type `E`, an input type `I`, a label
type `L`); what the extractor manipulates — row counts, iteration order and
the floating-point storage precision — is modelled explicitly.  `torch.Tensor`
is a batch of rows tagged with a dtype; `.detach()`, `.cpu()` and `.numpy()`
move data without changing row contents or dtype (the NumPy array of a
float16 tensor is itself float16). -/

/-- Floating-point storage precision of a tensor or array. -/
inductive Precision
  | float16
  | float32
deriving DecidableEq, Repr

/-- An abstract batched tensor: a list of per-example rows and a dtype. -/
structure MTensor (E : Type) where
  rows : List E
  dtype : Precision
deriving DecidableEq, Repr

/-- What an encoder call returns: either a single tensor, or (for encoders
that expose per-layer outputs) a Python list of tensors.  This is exactly the
distinction tested by `isinstance(emb, list)` on line 42. -/
inductive EncOut (E : Type)
  | single (t : MTensor E)
  | layers (ts : List (MTensor E))
deriving DecidableEq, Repr

/-- One batch yielded by a data loader: `for data, target in data_loader`.
`data` is the input batch, `target` the per-example integer labels. -/
structure Batch (I L : Type) where
  data : List I
  target : List L
deriving DecidableEq, Repr

/-- The argparse fields read inside `get_embeddings`. -/
structure EmbArgs where
  model_type : String
  use_cls : Bool

/-- Lines 42-43: `if isinstance(emb, list): emb = emb[-1]`.  Python's
`emb[-1]` on an empty list raises `IndexError`, hence the `Except`. -/
def selectFinal (emb : EncOut E) : Except String (MTensor E) :=
  match emb with
  | .single t => .ok t
  | .layers ts =>
    match ts.getLast? with
    | some t => .ok t
    | none => .error "IndexError: list index out of range"

/-- Lines 32-41: the forward pass on one batch, inside
`torch.cuda.amp.autocast(enabled=...)`.  The two branches (`utils.encode_vit`
for ViT model types, `model(...)` otherwise) are external encoder calls; both
are abstract functions receiving the autocast flag and the batch (the move to
the compute device, `split_frames=True` and the frozen weights live inside
them). -/
def batchOut (args : EmbArgs) (encodeVit : Bool → List I → Bool → EncOut E)
    (modelForward : Bool → List I → EncOut E) (enabled : Bool) (b : Batch I L) :
    EncOut E :=
  if strContains args.model_type "vit" then encodeVit enabled b.data args.use_cls
  else modelForward enabled b.data

/-- `get_embeddings` (lines 27-48): iterate the loader, run the forward pass
under `autocast(enabled=(fp16_scaler is not None))`, keep the final element
of a per-layer list, move the result to host memory (dtype preserved) and
extend the running `embs`/`targets` accumulators row by row.  Any exception
raised on a batch propagates and aborts the loop. -/
def get_embeddings (args : EmbArgs) (encodeVit : Bool → List I → Bool → EncOut E)
    (modelForward : Bool → List I → EncOut E) (fp16_scaler : Option Unit) :
    List (Batch I L) → Except String (List (E × Precision) × List L)
  | [] => .ok ([], [])
  | b :: rest =>
    match selectFinal (batchOut args encodeVit modelForward fp16_scaler.isSome b) with
    | .error e => .error e
    | .ok t =>
      match get_embeddings args encodeVit modelForward fp16_scaler rest with
      | .error e => .error e
      | .ok (es, ts) =>
        .ok (t.rows.map (fun r => (r, t.dtype)) ++ es, b.target ++ ts)

/-! ### Checkpoint loading (`load_model`, lines 114-133) -/

/-- A persisted checkpoint as produced by `torch.load`: a dict that either
carries a nested state dict under the key `"model"` (line 120-121 unwraps it)
or is itself the state dict.  The heterogeneous Python dict is modelled by an
optional nested mapping next to the flat entries. -/
structure Checkpoint (V : Type) where
  top : StateDict V
  nestedModel : Option (StateDict V)

/-- Lines 120-121: `if 'model' in sd.keys(): sd = sd.get('model')`. -/
def unwrapCheckpoint (c : Checkpoint V) : StateDict V :=
  match c.nestedModel with
  | some m => m
  | none => c.top

/-- No missing and no unexpected keys: every expected parameter name occurs in
the state dict and every state-dict key is expected. -/
def keysMatch (expected : List String) (sd : StateDict V) : Bool :=
  expected.all (fun k => (sd.map Prod.fst).contains k) &&
    (sd.map Prod.fst).all (fun k => expected.contains k)

/-- The error message of a strict-mode key mismatch. -/
def strictLoadError : String := "RuntimeError: Error(s) in loading state_dict"

/-- `module.load_state_dict(sd, strict=True)` per the library's documented
contract: with `strict`, loading succeeds (the module's parameters become
`sd`) exactly when the key sets match, and otherwise raises, aborting the
run before the partially written module is ever used. -/
def load_state_dict (expected : List String) (sd : StateDict V) (strict : Bool) :
    Except String (StateDict V) :=
  if strict && !keysMatch expected sd then .error strictLoadError else .ok sd

/-- The externally observable steps of `load_model`. -/
inductive LoadEvent
  | readCheckpoint
  | stripKeys
  | loadWeights
deriving DecidableEq, Repr

/-- `load_model` (lines 114-133).  `freshParams` are the parameters of the
freshly constructed `ModelWrapper(args).encoder`, `encoderKeys` its expected
parameter names, and `disk` maps a file path to the checkpoint `torch.load`
reads there.  Returns the encoder's final parameter mapping (or the
propagated exception) together with the trace of loading steps performed. -/
def load_model (freshParams : StateDict V) (encoderKeys : List String)
    (path : String) (disk : String → Checkpoint V) :
    Except String (StateDict V) × List LoadEvent :=
  if path = "" then (.ok freshParams, [])
  else
    let sd := unwrapCheckpoint (disk path)
    let clean_sd := cleanSD sd
    (load_state_dict encoderKeys clean_sd true,
      [.readCheckpoint, .stripKeys, .loadWeights])

/-! ### Classifier wiring (`eval_linear`, lines 51-89)

`TorchMLPClassifier` and `utils.eval_linear_low_shot` are external utilities;
they are abstracted as an interface receiving exactly the arguments the code
passes them.  A score is an abstract type `S`. -/

/-- The keyword arguments of the `TorchMLPClassifier` constructor call on
lines 67-73, in source order. -/
structure ClfConfig where
  hidden_layer_sizes : List Nat
  max_iter : Nat
  early_stopping : Bool
  n_iter_no_change : Nat
  debug : Bool
deriving DecidableEq, Repr

/-- An embedding array paired with its label vector. -/
abbrev Split (E L : Type) := List (E × Precision) × List L

/-- The external classifier utilities, as called by `eval_linear`:
`TorchMLPClassifier(...)` constructs a classifier, `clf.fit(X, y, X_val=,
y_val=)` trains it, `clf.score(X, y)` produces a scalar score, and
`utils.eval_linear_low_shot(X_train, y_train, X_val, y_val, X_test, y_test,
n=...)` returns a `(mean, std)` pair of scores. -/
structure ClassifierAPI (E L S Clf : Type) where
  new : ClfConfig → Clf
  fit : Clf → Split E L → Split E L → Clf
  score : Clf → Split E L → S
  lowShot : Split E L → Split E L → Split E L → Nat → S × S

/-- The `results_dict` of lines 84-87. -/
structure Results (S : Type) where
  score_all : S
  score_5 : S × S

/-- `eval_linear` (lines 51-89): build the `fp16_scaler` flag, extract the
three embedding splits, fit the fixed-configuration classifier on train with
val for early stopping, score it on test, run the 5-example-per-class
low-shot evaluation, and return both results. -/
def eval_linear (api : ClassifierAPI E L S Clf) (args : EmbArgs)
    (encodeVit : Bool → List I → Bool → EncOut E)
    (modelForward : Bool → List I → EncOut E)
    (train_loader val_loader test_loader : List (Batch I L)) (use_fp16 : Bool) :
    Except String (Results S) :=
  let fp16_scaler : Option Unit := if use_fp16 then some () else none
  match get_embeddings args encodeVit modelForward fp16_scaler train_loader with
  | .error e => .error e
  | .ok (X_train, y_train) =>
    match get_embeddings args encodeVit modelForward fp16_scaler val_loader with
    | .error e => .error e
    | .ok (X_val, y_val) =>
      match get_embeddings args encodeVit modelForward fp16_scaler test_loader with
      | .error e => .error e
      | .ok (X_test, y_test) =>
        let clf := api.new
          { hidden_layer_sizes := [1024]
            max_iter := 500
            early_stopping := true
            n_iter_no_change := 20
            debug := true }
        let clf := api.fit clf (X_train, y_train) (X_val, y_val)
        let score_all := api.score clf (X_test, y_test)
        let score_5 := api.lowShot (X_train, y_train) (X_val, y_val) (X_test, y_test) 5
        .ok { score_all := score_all, score_5 := score_5 }

/-! ### Dataset dispatch and the driver (`get_data`, `__main__`, lines 92-166) -/

/-- The three FSD50K evaluation loaders (train, val, test) built by
`get_fsd50k`; the dataset construction itself is external. -/
abbrev Loaders (I L : Type) := List (Batch I L) × List (Batch I L) × List (Batch I L)

/-- `get_data` (lines 92-94): only the `'fsd50k'` identifier is handled; a
Python function that falls off its end returns `None`, modelled by `none`. -/
def get_data (dataset : String) (fsd50k : Loaders I L) : Option (Loaders I L) :=
  if dataset = "fsd50k" then some fsd50k else none

/-- Lines 146-148: `log_dir` concatenated with `log.csv` by `os.path.join`
(the directory already ends in `/`). -/
def logPath (dataset model_name : String) : String :=
  "logs/linear_eval/" ++ dataset ++ "/" ++ model_name ++ "/" ++ "log.csv"

/-- Lines 165-166: the single CSV line handed to `logger.info`; the file
handler has no formatter, so the message is appended verbatim.  The three
scores appear through Python's `str()`, here already rendered as strings. -/
def logLine (model_epoch : Int) (score_all mean5 std5 : String) : String :=
  "epoch," ++ toString model_epoch ++ ",linear_score," ++ score_all ++
    ",linear_score_5_mean," ++ mean5 ++ ",linear_score_5_std," ++ std5

/-- The argparse fields the driver reads (dataset and fp16 flag come from the
shared hyperparameter set; `batch_size`/`num_workers` only parametrize the
external loaders and are not modelled). -/
structure Args where
  dataset : String
  model_file_path : String
  model_name : String
  model_epoch : Int
  model_type : String
  use_cls : Bool
  use_fp16_eval : Bool

/-- The external world the driver runs against. -/
structure Env (I L E S V Clf : Type) where
  fsd50kLoaders : Loaders I L
  disk : String → Checkpoint V
  encoderKeys : List String
  freshParams : StateDict V
  encodeVit : Bool → List I → Bool → EncOut E
  modelForward : Bool → List I → EncOut E
  api : ClassifierAPI E L S Clf
  strOf : S → String

/-- The externally observable phases of the `__main__` block. -/
inductive DriverEvent
  | gotData
  | loadedModel
  | evaluated
  | logged
deriving DecidableEq, Repr

/-- What a completed run appends to the log file. -/
structure RunLog where
  path : String
  lines : List String
deriving DecidableEq, Repr

/-- The `__main__` block (lines 137-166): unpack the three loaders (`None`
from `get_data` makes the tuple unpacking on line 154 raise a `TypeError`
before anything else runs), load the model, evaluate, and append exactly one
line to `logs/linear_eval/<dataset>/<model_name>/log.csv`.  The encoder
closures in `env` stand for the loaded model placed on the device. -/
def main_run (args : Args) (env : Env I L E S V Clf) :
    Except String RunLog × List DriverEvent :=
  match get_data args.dataset env.fsd50kLoaders with
  | none => (.error "TypeError: cannot unpack non-iterable NoneType object", [])
  | some loaders =>
    -- tuple unpacking: eval_train_loader, eval_val_loader, eval_test_loader
    match (load_model env.freshParams env.encoderKeys args.model_file_path env.disk).1 with
    | .error e => (.error e, [.gotData])
    | .ok _ =>
      match eval_linear env.api ⟨args.model_type, args.use_cls⟩ env.encodeVit
          env.modelForward loaders.1 loaders.2.1 loaders.2.2
          args.use_fp16_eval with
      | .error e => (.error e, [.gotData, .loadedModel])
      | .ok scores =>
        (.ok { path := logPath args.dataset args.model_name
               lines := [logLine args.model_epoch (env.strOf scores.score_all)
                 (env.strOf scores.score_5.1) (env.strOf scores.score_5.2)] },
          [.gotData, .loadedModel, .evaluated, .logged])

/-! ### Concrete instances

Small closed instantiations of the abstract collaborators, used to evaluate
the definitions on explicit inputs. -/

/-- Concrete argparse fields for a non-ViT model type. -/
def exEmbArgs : EmbArgs := ⟨"audiontt", false⟩

/-- A trivial concrete ViT encoder (unused branch for `"audiontt"`). -/
def exVit : Bool → List Nat → Bool → EncOut Nat :=
  fun _ d _ => .single ⟨d, .float32⟩

/-- A concrete single-output encoder working in float32. -/
def exMF : Bool → List Nat → EncOut Nat :=
  fun _ d => .single ⟨d, .float32⟩

/-- A concrete encoder exposing per-layer outputs: the final layer doubles
each input, the first layer adds one. -/
def exLayersForward : Bool → List Nat → EncOut Nat :=
  fun _ d => .layers [⟨d.map (· + 1), .float32⟩, ⟨d.map (· * 2), .float32⟩]

/-- A concrete encoder whose ops follow the autocast context, as documented
for the mixed-precision library: with autocast enabled the produced tensor is
float16, otherwise float32. -/
def autocastForward : Bool → List Nat → EncOut Nat :=
  fun enabled d => .single ⟨d, if enabled then .float16 else .float32⟩

/-- A concrete classifier utility returning fixed rendered scores. -/
def exAPI : ClassifierAPI Nat Nat String Unit where
  new := fun _ => ()
  fit := fun c _ _ => c
  score := fun _ _ => "0.8532"
  lowShot := fun _ _ _ _ => ("0.71", "0.04")

/-- A concrete environment: singleton loaders per split, a checkpoint whose
keys carry the `"backbone.encoder."` pattern, and matching encoder keys. -/
def exEnv : Env Nat Nat Nat String Nat Unit where
  fsd50kLoaders := ([⟨[1], [0]⟩], [⟨[2], [1]⟩], [⟨[3], [1]⟩])
  disk := fun _ => ⟨[("backbone.encoder.w", 7)], none⟩
  encoderKeys := ["w"]
  freshParams := [("w", 0)]
  encodeVit := exVit
  modelForward := exMF
  api := exAPI
  strOf := id

/-- `exEnv` with encoder keys that do not match the stripped checkpoint. -/
def exEnvMismatch : Env Nat Nat Nat String Nat Unit :=
  { exEnv with encoderKeys := ["v"], freshParams := [("v", 0)] }

/-- Concrete CLI arguments: the supported dataset, no checkpoint path. -/
def exArgs : Args :=
  { dataset := "fsd50k"
    model_file_path := ""
    model_name := "m"
    model_epoch := 100
    model_type := "audiontt"
    use_cls := false
    use_fp16_eval := false }

/-- The per-batch tensor selector used by the concrete encoders below:
`exMF` ignores the autocast flag and returns its input batch in float32. -/
def exTsel : Batch Nat Nat → MTensor Nat := fun b => ⟨b.data, .float32⟩

/-- The per-batch tensor selector matching `autocastForward` with autocast
enabled: the forward output is the input batch in float16. -/
def exTselHalf : Batch Nat Nat → MTensor Nat := fun b => ⟨b.data, .float16⟩

/-! ### Theorems -/

/-- When every batch's forward pass selects to the tensor `tsel b`, the
extractor succeeds and returns the per-batch host rows and the per-batch
labels, each flattened in iteration order. -/
theorem get_embeddings_eq_flatten (args : EmbArgs)
    (encodeVit : Bool → List I → Bool → EncOut E)
    (modelForward : Bool → List I → EncOut E) (fp : Option Unit)
    (tsel : Batch I L → MTensor E) :
    ∀ loader : List (Batch I L),
      (∀ b ∈ loader,
        selectFinal (batchOut args encodeVit modelForward fp.isSome b) = Except.ok (tsel b)) →
      get_embeddings args encodeVit modelForward fp loader =
        Except.ok
          ((loader.map fun b => (tsel b).rows.map fun r => (r, (tsel b).dtype)).flatten,
            (loader.map Batch.target).flatten) := by
  intro loader
  induction loader with
  | nil => intro _; simp [get_embeddings]
  | cons b rest ih =>
    intro h
    have hb := h b (by simp)
    have hrest := ih fun b' hb' => h b' (by simp [hb'])
    simp [get_embeddings, hb, hrest]

/-- Claim C2: for every loaded checkpoint mapping, the stripping loop tries
`"backbone.encoder."` first and `"encoder.encoder."` second, uses the first
pattern whose filtered mapping is non-empty, falls through to the next
candidate when a pattern occurs in no key (its filtered mapping then being
empty), and uses the mapping unmodified when neither pattern yields a
non-empty result. -/
theorem cleanSD_preference_order (sd : StateDict V) :
    (stripBy "backbone.encoder." sd ≠ [] →
      cleanSD sd = stripBy "backbone.encoder." sd) ∧
    (stripBy "backbone.encoder." sd = [] → stripBy "encoder.encoder." sd ≠ [] →
      cleanSD sd = stripBy "encoder.encoder." sd) ∧
    (stripBy "backbone.encoder." sd = [] → stripBy "encoder.encoder." sd = [] →
      cleanSD sd = sd) ∧
    (∀ p : String, (∀ kv ∈ sd, strContains kv.1 p = false) → stripBy p sd = []) := by
  refine ⟨?_, ?_, ?_, ?_⟩
  · intro h1
    rw [cleanSD, if_neg (by simpa [List.isEmpty_iff] using h1)]
  · intro h1 h2
    rw [cleanSD, if_pos (by simpa [List.isEmpty_iff] using h1),
      if_neg (by simpa [List.isEmpty_iff] using h2)]
  · intro h1 h2
    rw [cleanSD, if_pos (by simpa [List.isEmpty_iff] using h1),
      if_pos (by simpa [List.isEmpty_iff] using h2)]
  · intro p hp
    rw [stripBy, List.map_eq_nil_iff, List.filter_eq_nil_iff]
    intro kv hkv
    simp [hp kv hkv]

/-- Witness for C2: a key carrying the first pattern is stripped by it, a key
carrying only the second pattern falls through to the second, and a key
carrying neither leaves the mapping unmodified (its first filtered mapping
being empty). -/
theorem cleanSD_preference_order_witness :
    cleanSD [("backbone.encoder.w", (0 : Nat))] = [("w", 0)] ∧
    cleanSD [("encoder.encoder.w", (0 : Nat))] = [("w", 0)] ∧
    cleanSD [("fc.w", (0 : Nat))] = [("fc.w", 0)] ∧
    stripBy "backbone.encoder." [("fc.w", (0 : Nat))] = [] := by
  refine ⟨?_, ?_, ?_, ?_⟩
  · rw [(cleanSD_preference_order [("backbone.encoder.w", (0 : Nat))]).1 (by decide)]
    decide
  · rw [(cleanSD_preference_order [("encoder.encoder.w", (0 : Nat))]).2.1 (by decide) (by decide)]
    decide
  · exact (cleanSD_preference_order [("fc.w", (0 : Nat))]).2.2.1 (by decide) (by decide)
  · exact (cleanSD_preference_order [("fc.w", (0 : Nat))]).2.2.2 "backbone.encoder." (by decide)

/-- Claim C10: with the empty model file path (the argparse default), the
model loader reads no checkpoint, strips no keys and loads no state dict: it
returns the freshly constructed encoder's parameters unchanged with an empty
trace of loading steps. -/
theorem load_model_empty_path (freshParams : StateDict V) (encoderKeys : List String)
    (disk : String → Checkpoint V) :
    load_model freshParams encoderKeys "" disk = (Except.ok freshParams, []) := by
  rw [load_model, if_pos rfl]

/-- Claim C9: for every dataset identifier other than `"fsd50k"` the data
constructor returns `none` (Python's implicit `None`), the driver's unpacking
of that result raises before anything else happens — the run aborts with an
empty event trace, so no model is loaded and no embedding is extracted — and
`"fsd50k"` itself is dispatched to the three loaders. -/
theorem get_data_only_fsd50k (args : Args) (env : Env I L E S V Clf)
    (h : args.dataset ≠ "fsd50k") :
    get_data args.dataset env.fsd50kLoaders = none ∧
    main_run args env =
      (Except.error "TypeError: cannot unpack non-iterable NoneType object", []) ∧
    get_data "fsd50k" env.fsd50kLoaders = some env.fsd50kLoaders := by
  have hg : get_data args.dataset env.fsd50kLoaders = (none : Option (Loaders I L)) := by
    rw [get_data, if_neg h]
  refine ⟨hg, ?_, by rw [get_data, if_pos rfl]⟩
  rw [main_run, hg]

/-- Witness for C9: the dataset identifier `"esc50"` yields `none` and an
aborted run that loaded no model and extracted nothing. -/
theorem get_data_only_fsd50k_witness :
    get_data ({ exArgs with dataset := "esc50" } : Args).dataset exEnv.fsd50kLoaders = none ∧
    main_run { exArgs with dataset := "esc50" } exEnv =
      (Except.error "TypeError: cannot unpack non-iterable NoneType object", []) ∧
    get_data "fsd50k" exEnv.fsd50kLoaders = some exEnv.fsd50kLoaders :=
  get_data_only_fsd50k { exArgs with dataset := "esc50" } exEnv (by decide)

/-- Claim C3: with a non-empty model file path, the stripped mapping is
loaded strictly — the loader raises exactly when the stripped mapping's keys
fail to coincide with the encoder's expected parameter names, a successful
load installs exactly the stripped mapping (so no partial load can occur),
and in the mismatch case the whole run aborts right after the data phase. -/
theorem load_model_strict_keys (freshParams : StateDict V)
    (encoderKeys : List String) (path : String) (disk : String → Checkpoint V)
    (hpath : path ≠ "") :
    ((load_model freshParams encoderKeys path disk).1 = Except.error strictLoadError ↔
      keysMatch encoderKeys (cleanSD (unwrapCheckpoint (disk path))) = false) ∧
    (∀ m, (load_model freshParams encoderKeys path disk).1 = Except.ok m →
      keysMatch encoderKeys (cleanSD (unwrapCheckpoint (disk path))) = true ∧
      m = cleanSD (unwrapCheckpoint (disk path))) ∧
    (∀ {I L E S Clf : Type} (args : Args) (env : Env I L E S V Clf),
      args.dataset = "fsd50k" → args.model_file_path = path →
      env.freshParams = freshParams → env.encoderKeys = encoderKeys →
      env.disk = disk →
      keysMatch encoderKeys (cleanSD (unwrapCheckpoint (disk path))) = false →
      main_run args env = (Except.error strictLoadError, [DriverEvent.gotData])) := by
  have hlm : load_model freshParams encoderKeys path disk =
      (load_state_dict encoderKeys (cleanSD (unwrapCheckpoint (disk path))) true,
        [.readCheckpoint, .stripKeys, .loadWeights]) := by
    rw [load_model, if_neg hpath]
  refine ⟨?_, ?_, ?_⟩
  · rw [hlm]
    cases hk : keysMatch encoderKeys (cleanSD (unwrapCheckpoint (disk path))) with
    | false => simp [load_state_dict, hk]
    | true => simp [load_state_dict, hk]
  · intro m hm
    rw [hlm] at hm
    cases hk : keysMatch encoderKeys (cleanSD (unwrapCheckpoint (disk path))) with
    | false => rw [load_state_dict] at hm; simp [hk] at hm
    | true =>
      rw [load_state_dict] at hm
      simp only [hk, Bool.not_true, Bool.and_false, if_neg] at hm
      exact ⟨rfl, (Except.ok.injEq _ _ ▸ hm.symm)⟩
  · intro I' L' E' S' Clf' args env hds hp hfr hek hdk hk
    have hg : get_data args.dataset env.fsd50kLoaders = some env.fsd50kLoaders := by
      rw [hds, get_data, if_pos rfl]
    rw [main_run, hg, hp, hfr, hek, hdk, hlm]
    simp [load_state_dict, hk]

/-- Witness for C3: a checkpoint stripping to key `"w"` against an encoder
expecting key `"v"` makes the strict load raise and the run abort. -/
theorem load_model_strict_keys_witness :
    (load_model exEnvMismatch.freshParams exEnvMismatch.encoderKeys "ckpt.pth"
      exEnvMismatch.disk).1 = Except.error strictLoadError ∧
    main_run { exArgs with model_file_path := "ckpt.pth" } exEnvMismatch =
      (Except.error strictLoadError, [DriverEvent.gotData]) := by
  have h := load_model_strict_keys exEnvMismatch.freshParams exEnvMismatch.encoderKeys
    "ckpt.pth" exEnvMismatch.disk (by decide)
  exact ⟨h.1.mpr (by decide), h.2.2 _ exEnvMismatch rfl rfl rfl rfl rfl (by decide)⟩

/-- Claim C1: for every non-empty batch iterator (whose forward passes
succeed with one embedding row per example, labels aligned per batch), the
extractor returns the flattened per-batch rows and labels in iteration order
— every example covered exactly once — with embedding row count equal to the
total example count across all batches and label count equal to the
embedding row count. -/
theorem get_embeddings_covers_iterator (args : EmbArgs)
    (encodeVit : Bool → List I → Bool → EncOut E)
    (modelForward : Bool → List I → EncOut E) (fp : Option Unit)
    (loader : List (Batch I L)) (tsel : Batch I L → MTensor E)
    (_hne : loader ≠ [])
    (henc : ∀ b ∈ loader,
      selectFinal (batchOut args encodeVit modelForward fp.isSome b) = Except.ok (tsel b) ∧
      (tsel b).rows.length = b.data.length)
    (halign : ∀ b ∈ loader, b.target.length = b.data.length) :
    get_embeddings args encodeVit modelForward fp loader =
      Except.ok
        ((loader.map fun b => (tsel b).rows.map fun r => (r, (tsel b).dtype)).flatten,
          (loader.map Batch.target).flatten) ∧
    ((loader.map fun b => (tsel b).rows.map fun r => (r, (tsel b).dtype)).flatten).length =
      (loader.map fun b => b.data.length).sum ∧
    ((loader.map Batch.target).flatten).length =
      ((loader.map fun b => (tsel b).rows.map fun r => (r, (tsel b).dtype)).flatten).length := by
  have hrow : ((loader.map fun b => (tsel b).rows.map fun r => (r, (tsel b).dtype)).flatten).length =
      (loader.map fun b => b.data.length).sum := by
    rw [List.length_flatten, List.map_map]
    exact congrArg List.sum (List.map_congr_left fun b hb => by
      simp [(henc b hb).2])
  refine ⟨get_embeddings_eq_flatten args encodeVit modelForward fp tsel loader
    (fun b hb => (henc b hb).1), hrow, ?_⟩
  rw [hrow, List.length_flatten, List.map_map]
  exact congrArg List.sum (List.map_congr_left fun b hb => by
    simp [halign b hb])

/-- Witness for C1: a two-batch iterator with three examples in total. -/
theorem get_embeddings_covers_iterator_witness :
    get_embeddings exEmbArgs exVit exMF none [⟨[1, 2], [0, 1]⟩, ⟨[3], [1]⟩] =
      Except.ok
        ((([⟨[1, 2], [0, 1]⟩, ⟨[3], [1]⟩] : List (Batch Nat Nat)).map fun b =>
            (exTsel b).rows.map fun r => (r, (exTsel b).dtype)).flatten,
          (([⟨[1, 2], [0, 1]⟩, ⟨[3], [1]⟩] : List (Batch Nat Nat)).map Batch.target).flatten) ∧
    ((([⟨[1, 2], [0, 1]⟩, ⟨[3], [1]⟩] : List (Batch Nat Nat)).map fun b =>
        (exTsel b).rows.map fun r => (r, (exTsel b).dtype)).flatten).length =
      (([⟨[1, 2], [0, 1]⟩, ⟨[3], [1]⟩] : List (Batch Nat Nat)).map fun b => b.data.length).sum ∧
    ((([⟨[1, 2], [0, 1]⟩, ⟨[3], [1]⟩] : List (Batch Nat Nat)).map Batch.target).flatten).length =
      ((([⟨[1, 2], [0, 1]⟩, ⟨[3], [1]⟩] : List (Batch Nat Nat)).map fun b =>
        (exTsel b).rows.map fun r => (r, (exTsel b).dtype)).flatten).length :=
  get_embeddings_covers_iterator exEmbArgs exVit exMF none
    [⟨[1, 2], [0, 1]⟩, ⟨[3], [1]⟩] exTsel (by decide) (by decide) (by decide)

/-- Claim C5: an encoder output that is a list selects to its final element
(and only succeeds that way), a non-list output is kept as produced, and the
selected tensor is exactly what the extractor stores for the batch. -/
theorem final_layer_selected (args : EmbArgs)
    (encodeVit : Bool → List I → Bool → EncOut E)
    (modelForward : Bool → List I → EncOut E) (fp : Option Unit)
    (b : Batch I L) (t u : MTensor E) (ts : List (MTensor E)) :
    (selectFinal (EncOut.layers ts) = Except.ok u ↔ ts.getLast? = some u) ∧
    selectFinal (EncOut.single u) = Except.ok u ∧
    (selectFinal (batchOut args encodeVit modelForward fp.isSome b) = Except.ok t →
      get_embeddings args encodeVit modelForward fp [b] =
        Except.ok (t.rows.map fun r => (r, t.dtype), b.target)) := by
  refine ⟨?_, rfl, ?_⟩
  · rw [selectFinal]
    cases h : ts.getLast? with
    | none => simp
    | some v => simp
  · intro h
    simp [get_embeddings, h]

/-- Witness for C5: a two-layer output selects to the doubled (final-layer)
rows, which are what gets stored. -/
theorem final_layer_selected_witness :
    (selectFinal (EncOut.layers [⟨[1], .float32⟩, ⟨[9], .float32⟩]) =
        Except.ok (⟨[9], .float32⟩ : MTensor Nat) ↔
      [(⟨[1], .float32⟩ : MTensor Nat), ⟨[9], .float32⟩].getLast? = some ⟨[9], .float32⟩) ∧
    selectFinal (EncOut.single (⟨[9], .float32⟩ : MTensor Nat)) = Except.ok ⟨[9], .float32⟩ ∧
    get_embeddings exEmbArgs exVit exLayersForward none [⟨[5], [3]⟩] =
      Except.ok ([((10 : Nat), Precision.float32)], [(3 : Nat)]) := by
  have h := final_layer_selected exEmbArgs exVit exLayersForward none
    ⟨[5], [3]⟩ ⟨[10], .float32⟩ ⟨[9], .float32⟩ [⟨[1], .float32⟩, ⟨[9], .float32⟩]
  exact ⟨h.1, h.2.1, h.2.2 (by decide)⟩

/-- Counterexample to claim C4: with the reduced-precision flag enabled and a
forward pass that (as autocast is documented to do) produces a float16
tensor, the extractor stores the batch's rows still in float16 — the output
is not converted back to standard (float32) precision before storage, since
`detach`/`cpu`/`numpy` all preserve the dtype. -/
theorem get_embeddings_no_float32_cast :
    get_embeddings exEmbArgs exVit autocastForward (some ()) [⟨[7], [3]⟩] =
      Except.ok ([((7 : Nat), Precision.float16)], [(3 : Nat)]) ∧
    Precision.float16 ≠ Precision.float32 := by
  exact ⟨rfl, by decide⟩

/-- Claim C4 as amended: the autocast flag handed to every forward pass is
enabled exactly when the scaler is present, and the extractor stores each
row in the dtype the forward pass produced; with the flag enabled and a
reduced-precision forward, every stored row is float16 — nothing is converted
back to float32 before storage. -/
theorem get_embeddings_keeps_dtype (args : EmbArgs)
    (encodeVit : Bool → List I → Bool → EncOut E)
    (modelForward : Bool → List I → EncOut E) (fp : Option Unit)
    (loader : List (Batch I L)) (tsel : Batch I L → MTensor E)
    (_hfp : fp.isSome = true)
    (henc : ∀ b ∈ loader,
      selectFinal (batchOut args encodeVit modelForward fp.isSome b) = Except.ok (tsel b))
    (hhalf : ∀ b ∈ loader, (tsel b).dtype = Precision.float16) :
    get_embeddings args encodeVit modelForward fp loader =
      Except.ok
        ((loader.map fun b => (tsel b).rows.map fun r => (r, (tsel b).dtype)).flatten,
          (loader.map Batch.target).flatten) ∧
    ((loader.map fun b => (tsel b).rows.map fun r => (r, (tsel b).dtype)).flatten).all
      (fun rp => rp.2 == Precision.float16) = true := by
  refine ⟨get_embeddings_eq_flatten args encodeVit modelForward fp tsel loader henc, ?_⟩
  rw [List.all_eq_true]
  intro rp hrp
  rw [List.mem_flatten] at hrp
  obtain ⟨l, hl, hrl⟩ := hrp
  rw [List.mem_map] at hl
  obtain ⟨b, hb, rfl⟩ := hl
  rw [List.mem_map] at hrl
  obtain ⟨r, _, rfl⟩ := hrl
  simp [hhalf b hb]

/-- Witness for the amended C4: one batch through a float16 autocast forward
pass is stored entirely in float16. -/
theorem get_embeddings_keeps_dtype_witness :
    get_embeddings exEmbArgs exVit autocastForward (some ()) [⟨[7], [3]⟩] =
      Except.ok
        ((([⟨[7], [3]⟩] : List (Batch Nat Nat)).map fun b =>
            (exTselHalf b).rows.map fun r => (r, (exTselHalf b).dtype)).flatten,
          (([⟨[7], [3]⟩] : List (Batch Nat Nat)).map Batch.target).flatten) ∧
    ((([⟨[7], [3]⟩] : List (Batch Nat Nat)).map fun b =>
        (exTselHalf b).rows.map fun r => (r, (exTselHalf b).dtype)).flatten).all
      (fun rp => rp.2 == Precision.float16) = true :=
  get_embeddings_keeps_dtype exEmbArgs exVit autocastForward (some ())
    [⟨[7], [3]⟩] exTselHalf rfl (by decide) (by decide)

/-- `eval_linear` in closed form: when the three extractions succeed, the
result is the score of the fixed-configuration classifier fitted on train
with val and scored on test, together with the `n = 5` low-shot pair. -/
theorem eval_linear_eq (api : ClassifierAPI E L S Clf) (args : EmbArgs)
    (encodeVit : Bool → List I → Bool → EncOut E)
    (modelForward : Bool → List I → EncOut E)
    (train_loader val_loader test_loader : List (Batch I L)) (use_fp16 : Bool)
    (X_train X_val X_test : List (E × Precision)) (y_train y_val y_test : List L)
    (htr : get_embeddings args encodeVit modelForward
      (if use_fp16 then some () else none) train_loader = Except.ok (X_train, y_train))
    (hva : get_embeddings args encodeVit modelForward
      (if use_fp16 then some () else none) val_loader = Except.ok (X_val, y_val))
    (hte : get_embeddings args encodeVit modelForward
      (if use_fp16 then some () else none) test_loader = Except.ok (X_test, y_test)) :
    eval_linear api args encodeVit modelForward train_loader val_loader test_loader use_fp16 =
      Except.ok
        { score_all := api.score (api.fit (api.new
            { hidden_layer_sizes := [1024], max_iter := 500, early_stopping := true,
              n_iter_no_change := 20, debug := true })
            (X_train, y_train) (X_val, y_val)) (X_test, y_test),
          score_5 := api.lowShot (X_train, y_train) (X_val, y_val) (X_test, y_test) 5 } := by
  rw [eval_linear]
  simp only [htr, hva, hte]

/-- Claim C7: the full-data classifier is always constructed with exactly one
hidden layer of 1024 units, 500 maximum iterations, early stopping on, and
patience 20; it is fitted on the train embeddings with the val embeddings and
its scalar score is taken on the test embeddings. -/
theorem clf_fixed_config (api : ClassifierAPI E L S Clf) (args : EmbArgs)
    (encodeVit : Bool → List I → Bool → EncOut E)
    (modelForward : Bool → List I → EncOut E)
    (train_loader val_loader test_loader : List (Batch I L)) (use_fp16 : Bool)
    (X_train X_val X_test : List (E × Precision)) (y_train y_val y_test : List L)
    (htr : get_embeddings args encodeVit modelForward
      (if use_fp16 then some () else none) train_loader = Except.ok (X_train, y_train))
    (hva : get_embeddings args encodeVit modelForward
      (if use_fp16 then some () else none) val_loader = Except.ok (X_val, y_val))
    (hte : get_embeddings args encodeVit modelForward
      (if use_fp16 then some () else none) test_loader = Except.ok (X_test, y_test)) :
    eval_linear api args encodeVit modelForward train_loader val_loader test_loader use_fp16 =
      Except.ok
        { score_all := api.score (api.fit (api.new
            { hidden_layer_sizes := [1024], max_iter := 500, early_stopping := true,
              n_iter_no_change := 20, debug := true })
            (X_train, y_train) (X_val, y_val)) (X_test, y_test),
          score_5 := api.lowShot (X_train, y_train) (X_val, y_val) (X_test, y_test) 5 } :=
  eval_linear_eq api args encodeVit modelForward train_loader val_loader test_loader
    use_fp16 X_train X_val X_test y_train y_val y_test htr hva hte

/-- Witness for C7: the concrete environment's singleton splits. -/
theorem clf_fixed_config_witness :
    eval_linear exAPI exEmbArgs exVit exMF [⟨[1], [0]⟩] [⟨[2], [1]⟩] [⟨[3], [1]⟩] false =
      Except.ok
        { score_all := exAPI.score (exAPI.fit (exAPI.new
            { hidden_layer_sizes := [1024], max_iter := 500, early_stopping := true,
              n_iter_no_change := 20, debug := true })
            ([((1 : Nat), Precision.float32)], [(0 : Nat)])
            ([((2 : Nat), Precision.float32)], [(1 : Nat)]))
            ([((3 : Nat), Precision.float32)], [(1 : Nat)]),
          score_5 := exAPI.lowShot ([((1 : Nat), Precision.float32)], [(0 : Nat)])
            ([((2 : Nat), Precision.float32)], [(1 : Nat)])
            ([((3 : Nat), Precision.float32)], [(1 : Nat)]) 5 } :=
  clf_fixed_config exAPI exEmbArgs exVit exMF [⟨[1], [0]⟩] [⟨[2], [1]⟩] [⟨[3], [1]⟩]
    false _ _ _ _ _ _ rfl rfl rfl

/-- Claim C6: a run that reaches the end appends exactly one line, to
`logs/linear_eval/<dataset>/<model_name>/log.csv`, in the exact textual
format `epoch,<e>,linear_score,<s>,linear_score_5_mean,<m>,linear_score_5_std,<sd>`;
in particular for epoch 100 and scores 0.8532, (0.71, 0.04) the emitted line
is exactly `epoch,100,linear_score,0.8532,linear_score_5_mean,0.71,linear_score_5_std,0.04`. -/
theorem one_log_line (args : Args) (env : Env I L E S V Clf) (r : Results S)
    (p : StateDict V)
    (hds : args.dataset = "fsd50k")
    (hload : (load_model env.freshParams env.encoderKeys args.model_file_path env.disk).1 =
      Except.ok p)
    (heval : eval_linear env.api ⟨args.model_type, args.use_cls⟩ env.encodeVit
      env.modelForward env.fsd50kLoaders.1 env.fsd50kLoaders.2.1 env.fsd50kLoaders.2.2
      args.use_fp16_eval = Except.ok r) :
    main_run args env =
      (Except.ok
        { path := logPath args.dataset args.model_name
          lines := [logLine args.model_epoch (env.strOf r.score_all)
            (env.strOf r.score_5.1) (env.strOf r.score_5.2)] },
        [DriverEvent.gotData, .loadedModel, .evaluated, .logged]) ∧
    [logLine args.model_epoch (env.strOf r.score_all) (env.strOf r.score_5.1)
      (env.strOf r.score_5.2)].length = 1 ∧
    logPath args.dataset args.model_name =
      "logs/linear_eval/" ++ args.dataset ++ "/" ++ args.model_name ++ "/log.csv" ∧
    logLine 100 "0.8532" "0.71" "0.04" =
      "epoch,100,linear_score,0.8532,linear_score_5_mean,0.71,linear_score_5_std,0.04" := by
  have hg : get_data args.dataset env.fsd50kLoaders = some env.fsd50kLoaders := by
    rw [hds, get_data, if_pos rfl]
  refine ⟨?_, rfl, ?_, by decide⟩
  · rw [main_run, hg, hload]
    simp only [heval]
  · have hcsv : ("/" ++ "log.csv" : String) = "/log.csv" := by decide
    rw [logPath, String.append_assoc, hcsv]

/-- Witness for C6: a complete concrete run writes the single exact line. -/
theorem one_log_line_witness :
    main_run exArgs exEnv =
      (Except.ok
        { path := logPath exArgs.dataset exArgs.model_name
          lines := [logLine exArgs.model_epoch (exEnv.strOf "0.8532")
            (exEnv.strOf ("0.71", "0.04").1) (exEnv.strOf ("0.71", "0.04").2)] },
        [DriverEvent.gotData, .loadedModel, .evaluated, .logged]) ∧
    [logLine exArgs.model_epoch (exEnv.strOf "0.8532") (exEnv.strOf ("0.71", "0.04").1)
      (exEnv.strOf ("0.71", "0.04").2)].length = 1 ∧
    logPath exArgs.dataset exArgs.model_name =
      "logs/linear_eval/" ++ exArgs.dataset ++ "/" ++ exArgs.model_name ++ "/log.csv" ∧
    logLine 100 "0.8532" "0.71" "0.04" =
      "epoch,100,linear_score,0.8532,linear_score_5_mean,0.71,linear_score_5_std,0.04" :=
  one_log_line exArgs exEnv ⟨"0.8532", ("0.71", "0.04")⟩ [("w", 0)] rfl rfl rfl

/-- Claim C8: the low-shot evaluation is invoked with exactly `n = 5` and the
training-split embeddings as its subsampling source, and its two-component
result `(mean, std)` is written component-wise into the logged line. -/
theorem low_shot_n5 (args : Args) (env : Env I L E S V Clf)
    (p : StateDict V)
    (X_train X_val X_test : List (E × Precision)) (y_train y_val y_test : List L)
    (hds : args.dataset = "fsd50k")
    (hload : (load_model env.freshParams env.encoderKeys args.model_file_path env.disk).1 =
      Except.ok p)
    (htr : get_embeddings ⟨args.model_type, args.use_cls⟩ env.encodeVit env.modelForward
      (if args.use_fp16_eval then some () else none) env.fsd50kLoaders.1 =
      Except.ok (X_train, y_train))
    (hva : get_embeddings ⟨args.model_type, args.use_cls⟩ env.encodeVit env.modelForward
      (if args.use_fp16_eval then some () else none) env.fsd50kLoaders.2.1 =
      Except.ok (X_val, y_val))
    (hte : get_embeddings ⟨args.model_type, args.use_cls⟩ env.encodeVit env.modelForward
      (if args.use_fp16_eval then some () else none) env.fsd50kLoaders.2.2 =
      Except.ok (X_test, y_test)) :
    main_run args env =
      (Except.ok
        { path := logPath args.dataset args.model_name
          lines := [logLine args.model_epoch
            (env.strOf (env.api.score (env.api.fit (env.api.new
              { hidden_layer_sizes := [1024], max_iter := 500, early_stopping := true,
                n_iter_no_change := 20, debug := true })
              (X_train, y_train) (X_val, y_val)) (X_test, y_test)))
            (env.strOf (env.api.lowShot (X_train, y_train) (X_val, y_val) (X_test, y_test) 5).1)
            (env.strOf (env.api.lowShot (X_train, y_train) (X_val, y_val) (X_test, y_test) 5).2)] },
        [DriverEvent.gotData, .loadedModel, .evaluated, .logged]) := by
  have hg : get_data args.dataset env.fsd50kLoaders = some env.fsd50kLoaders := by
    rw [hds, get_data, if_pos rfl]
  have heval := eval_linear_eq env.api ⟨args.model_type, args.use_cls⟩ env.encodeVit
    env.modelForward env.fsd50kLoaders.1 env.fsd50kLoaders.2.1 env.fsd50kLoaders.2.2
    args.use_fp16_eval X_train X_val X_test y_train y_val y_test htr hva hte
  rw [main_run, hg, hload]
  simp only [heval]

/-- Witness for C8: the concrete run's low-shot invocation at `n = 5` on the
train split, with its mean and std written to the line. -/
theorem low_shot_n5_witness :
    main_run exArgs exEnv =
      (Except.ok
        { path := logPath exArgs.dataset exArgs.model_name
          lines := [logLine exArgs.model_epoch
            (exEnv.strOf (exEnv.api.score (exEnv.api.fit (exEnv.api.new
              { hidden_layer_sizes := [1024], max_iter := 500, early_stopping := true,
                n_iter_no_change := 20, debug := true })
              ([((1 : Nat), Precision.float32)], [(0 : Nat)])
              ([((2 : Nat), Precision.float32)], [(1 : Nat)]))
              ([((3 : Nat), Precision.float32)], [(1 : Nat)])))
            (exEnv.strOf (exEnv.api.lowShot ([((1 : Nat), Precision.float32)], [(0 : Nat)])
              ([((2 : Nat), Precision.float32)], [(1 : Nat)])
              ([((3 : Nat), Precision.float32)], [(1 : Nat)]) 5).1)
            (exEnv.strOf (exEnv.api.lowShot ([((1 : Nat), Precision.float32)], [(0 : Nat)])
              ([((2 : Nat), Precision.float32)], [(1 : Nat)])
              ([((3 : Nat), Precision.float32)], [(1 : Nat)]) 5).2)] },
        [DriverEvent.gotData, .loadedModel, .evaluated, .logged]) :=
  low_shot_n5 exArgs exEnv [("w", 0)]
    [((1 : Nat), Precision.float32)] [((2 : Nat), Precision.float32)]
    [((3 : Nat), Precision.float32)] [(0 : Nat)] [(1 : Nat)] [(1 : Nat)]
    rfl rfl rfl rfl rfl

end LinearPy
